import Mathlib

set_option linter.unusedVariables false

/-
Verification of the Sensay Replica Manager training core (src/app.py).

The embedding models:
  * `make_sensay_request` (src/app.py lines 19-53) over an abstract outcome of
    the single outbound HTTP call (`NetOutcome`);
  * the tab2 training loop (src/app.py lines 248-344): the owner-id guard, the
    Supabase backlog fetch, the per-row two-step knowledge-base write, the
    Supabase mark-processed update, counters, the ordered training log, the
    inter-row delay, and the final summary.

JSON values are modelled by `JVal` with Python truthiness; `dict.get` on a
truthy non-dict value raises `AttributeError` in Python, which the embedding
models with `Except`.
-/

namespace Sensay

/-- Model of a parsed JSON value, as handed around by the Python code. -/
inductive JVal where
  | jnull
  | jbool (b : Bool)
  | jnum (n : Int)
  | jstr (s : String)
  | jarr (elems : List JVal)
  | jobj (fields : List (String × JVal))

/-- Python truthiness of a JSON value (`bool(v)`). -/
def JVal.truthy : JVal → Bool
  | .jnull => false
  | .jbool b => b
  | .jnum n => n != 0
  | .jstr s => s != ""
  | .jarr xs => !xs.isEmpty
  | .jobj fs => !fs.isEmpty

/-- First binding of a key in a JSON object's field list (`dict` keys are
unique, so this is `dict.get` with default `None`). -/
def lookupField : List (String × JVal) → String → Option JVal
  | [], _ => none
  | (k, v) :: rest, key => if k = key then some v else lookupField rest key

/-- Python `repr` of a JSON value (used when a value is interpolated inside a
container; string escaping inside quotes is not modelled). -/
def JVal.pyRepr : JVal → String
  | .jnull => "None"
  | .jbool true => "True"
  | .jbool false => "False"
  | .jnum n => toString n
  | .jstr s => "'" ++ s ++ "'"
  | .jarr xs => "[" ++ String.intercalate ", " (xs.attach.map fun x => x.1.pyRepr) ++ "]"
  | .jobj fs =>
      "\x7b" ++
        String.intercalate ", "
          (fs.attach.map fun p => "'" ++ p.1.1 ++ "': " ++ p.1.2.pyRepr) ++
      "\x7d"
decreasing_by
  all_goals simp_wf
  · have h := List.sizeOf_lt_of_mem x.2
    omega
  · have h := List.sizeOf_lt_of_mem p.2
    rcases p with ⟨⟨k, v⟩, hm⟩
    simp at h ⊢
    omega

/-- Python `str` of a JSON value, as produced by f-string interpolation. -/
def JVal.pyStr : JVal → String
  | .jstr s => s
  | v => v.pyRepr

/-- `dict.get key` on a JSON value: only objects support `.get`; on any other
value Python raises `AttributeError`. -/
def JVal.dictGet (j : JVal) (key : String) : Except String (Option JVal) :=
  match j with
  | .jobj fs => .ok (lookupField fs key)
  | _ => .error "AttributeError"

/-- Body of an HTTP response as seen by `response.json()`: either text that
parses as JSON, or raw non-JSON text. -/
inductive HttpBody where
  | jsonBody (j : JVal)
  | rawBody (s : String)

/-- Outcome of the single outbound call made by `make_sensay_request`: a
response with a status code and body, or a raised
`requests.exceptions.RequestException` (timeout, connection error, ...).
`libErrStr` carries the library-formatted exception text used when the
response leads `requests` to raise (`str(http_err)` for `raise_for_status`,
the decode error text for a non-JSON body). -/
inductive NetOutcome where
  | response (status : Nat) (body : HttpBody) (libErrStr : String)
  | netFail (msg : String)

/-- The `details` entry of the error dict built for an HTTP error: the parsed
JSON error body, or the raw text when the body is not JSON
(src/app.py lines 45-48). -/
inductive ErrDetails where
  | jsonDetails (j : JVal)
  | textDetails (s : String)

/-- The error dicts `make_sensay_request` can return (src/app.py lines 39,
44-53). -/
inductive SensayError where
  | unsupportedMethod
  | httpError (msg : String) (status_code : Nat) (details : ErrDetails)
  | requestError (msg : String)

/-- Status code carried by an error, when any. -/
def SensayError.statusCode : SensayError → Option Nat
  | .httpError _ sc _ => some sc
  | _ => none

/-- Python `repr` of the error dict (insertion order of keys; string escaping
inside quotes is not modelled). -/
def ErrDetails.pyRepr : ErrDetails → String
  | .jsonDetails j => j.pyRepr
  | .textDetails s => "'" ++ s ++ "'"

def SensayError.pyRepr : SensayError → String
  | .unsupportedMethod => "\x7b'error': 'Unsupported HTTP method'\x7d"
  | .httpError msg sc d =>
      "\x7b'error': '" ++ msg ++ "', 'status_code': " ++ toString sc ++
        ", 'details': " ++ d.pyRepr ++ "\x7d"
  | .requestError msg => "\x7b'error': '" ++ msg ++ "'\x7d"

/-- Result of `make_sensay_request`: the `(data, error)` pair it returns, plus
whether an outbound network call was made. -/
structure RequestResult where
  data : Option JVal
  error : Option SensayError
  networkCalled : Bool

/-- Python `str.upper()` (`String.toUpper`, spelt out so that it reduces). -/
def strUpper (s : String) : String := String.mk (s.toList.map Char.toUpper)

/-- The verbs handled by the `if/elif` chain (src/app.py lines 30-39). -/
def supportedMethod (method : String) : Bool :=
  strUpper method == "GET" || strUpper method == "POST" ||
    strUpper method == "PUT" || strUpper method == "DELETE"

/-- `requests.Response.raise_for_status` raises exactly for 4xx/5xx codes. -/
def raiseForStatus (status : Nat) : Bool :=
  decide (400 ≤ status) && decide (status ≤ 599)

/-- Embedding of `make_sensay_request` (src/app.py lines 19-53).  The headers,
body, params and URL do not influence which branch runs, so they are carried
only for signature fidelity; `net` is the outcome of the one outbound call.
A non-JSON body on a non-raising response makes `response.json()` raise
`requests.exceptions.JSONDecodeError`, a `RequestException`, landing in the
`req_err` branch (line 50). -/
def make_sensay_request (method endpoint sensay_org_secret sensay_api_version : String)
    (json_data params : Option JVal) (user_id : Option String)
    (net : NetOutcome) : RequestResult :=
  if supportedMethod method then
    match net with
    | .netFail msg =>
        ⟨none, some (.requestError ("Request error occurred: " ++ msg)), true⟩
    | .response status body libErrStr =>
        if raiseForStatus status then
          ⟨none,
           some (.httpError ("HTTP error occurred: " ++ libErrStr) status
             (match body with
              | .jsonBody j => .jsonDetails j
              | .rawBody s => .textDetails s)),
           true⟩
        else
          match body with
          | .jsonBody j => ⟨some j, none, true⟩
          | .rawBody _ =>
              ⟨none, some (.requestError ("Request error occurred: " ++ libErrStr)), true⟩
  else
    ⟨none, some .unsupportedMethod, false⟩

/-! ## The tab2 training loop (src/app.py lines 248-344) -/

/-- One backlog row, as selected by the Supabase query
`select("message_content, slack_message_ts, id")` (src/app.py line 259). -/
structure Row where
  message_content : String
  slack_message_ts : String
  id : Nat
  deriving DecidableEq

/-- The environment a single loop iteration interacts with: the outcome of the
POST creating the knowledge-base entry, the outcome of the PUT filling it, and
whether the Supabase `update(processed_for_sensay := True)` call raises
(`some e` carries the exception text of `e_supa_update`). -/
structure RowCalls where
  createNet : NetOutcome
  fillNet : NetOutcome
  markErr : Option String

/-- Which branch of the loop body a row took. -/
inductive RowOutcome where
  | createFailed
  | missingKbId
  | fillFailed
  | markFailed
  | success
  deriving DecidableEq

/-- Observable effect of one loop iteration: the appended log line, the
counter increments, whether the row's `processed_for_sensay` flag was set,
whether the PUT (fill) call was issued, whether `time.sleep(0.2)` ran before
the next row, and how many Sensay API calls were made. -/
structure RowStep where
  outcome : RowOutcome
  logLine : String
  processedInc : Nat
  errorInc : Nat
  marked : Bool
  fillAttempted : Bool
  slept : Bool
  sensayCalls : Nat
  deriving DecidableEq

/-- Python truthiness of an optional JSON value (`None` is falsy). -/
def pyTruthyOpt : Option JVal → Bool
  | none => false
  | some v => v.truthy

/-- The check `if err or not data or not data.get(key):` with Python
short-circuit evaluation; `.get` on a truthy non-dict raises. -/
def callFailCheck (e : Option SensayError) (d : Option JVal) (key : String) :
    Except String Bool :=
  if e.isSome then .ok true
  else if !(pyTruthyOpt d) then .ok true
  else match d with
    | some j => (j.dictGet key).map fun v => !(pyTruthyOpt v)
    | none => .ok true

/-- The f-string fragment `{err or data}`: Python `or` yields the first truthy
operand (the error dict is non-empty, hence truthy, whenever present). -/
def renderPyOr (e : Option SensayError) (d : Option JVal) : String :=
  match e with
  | some err => err.pyRepr
  | none =>
    match d with
    | some v => v.pyStr
    | none => "None"

/-- One iteration of `for i, msg_data in enumerate(messages_to_train)`
(src/app.py lines 285-338).  The progress-bar and live log-area updates are
presentational and tracked only through `slept` (both sit after the two
`continue` statements).  `.error` models an uncaught exception
(`AttributeError` from `.get` on a truthy non-dict response body), which would
abort the whole loop. -/
def stepRow (sensay_org_secret sensay_api_version replica_uuid : String)
    (row : Row) (calls : RowCalls) : Except String RowStep :=
  let r1 := make_sensay_request "POST" ("/replicas/" ++ replica_uuid ++ "/training")
      sensay_org_secret sensay_api_version (some (.jobj [])) none none calls.createNet
  match callFailCheck r1.error r1.data "success" with
  | .error e => .error e
  | .ok true =>
      .ok { outcome := .createFailed,
            logLine := "❌ Failed to create Sensay KB entry for msg_ts " ++
              row.slack_message_ts ++ ": " ++ renderPyOr r1.error r1.data,
            processedInc := 0, errorInc := 1, marked := false,
            fillAttempted := false, slept := false, sensayCalls := 1 }
  | .ok false =>
      match r1.data with
      | some (.jobj fs) =>
        let knowledge_base_id := lookupField fs "knowledgeBaseID"
        if !(pyTruthyOpt knowledge_base_id) then
          .ok { outcome := .missingKbId,
                logLine := "❌ Missing knowledgeBaseID for msg_ts " ++
                  row.slack_message_ts ++ " after KB entry creation.",
                processedInc := 0, errorInc := 1, marked := false,
                fillAttempted := false, slept := false, sensayCalls := 1 }
        else
          let kbStr := (knowledge_base_id.getD .jnull).pyStr
          let r2 := make_sensay_request "PUT"
              ("/replicas/" ++ replica_uuid ++ "/training/" ++ kbStr)
              sensay_org_secret sensay_api_version
              (some (.jobj [("rawText", .jstr row.message_content)])) none none
              calls.fillNet
          match callFailCheck r2.error r2.data "success" with
          | .error e => .error e
          | .ok true =>
              .ok { outcome := .fillFailed,
                    logLine := "❌ Failed to add text to Sensay KB entry " ++ kbStr ++
                      " (msg_ts " ++ row.slack_message_ts ++ "): " ++
                      renderPyOr r2.error r2.data,
                    processedInc := 0, errorInc := 1, marked := false,
                    fillAttempted := true, slept := true, sensayCalls := 2 }
          | .ok false =>
              match calls.markErr with
              | none =>
                  .ok { outcome := .success,
                        logLine := "✅ Trained with Supabase Msg ID " ++ toString row.id ++
                          " (KB ID: " ++ kbStr ++ ")",
                        processedInc := 1, errorInc := 0, marked := true,
                        fillAttempted := true, slept := true, sensayCalls := 2 }
              | some e =>
                  .ok { outcome := .markFailed,
                        logLine := "⚠️ Trained Sensay with msg_ts " ++
                          row.slack_message_ts ++ ", but FAILED to update Supabase: " ++ e,
                        processedInc := 0, errorInc := 1, marked := false,
                        fillAttempted := true, slept := true, sensayCalls := 2 }
      | _ =>
        -- unreachable: the success check passed, so the body was a dict
        .error "AttributeError"

/-- In-memory state of one training run: the two counters, the ordered log,
the backing store's `processed_for_sensay` column (keyed by row id), and the
accumulated sleep and Sensay-call counts. -/
structure RunState where
  processed_count : Nat
  error_count : Nat
  training_logs : List String
  store : Nat → Bool
  sleeps : Nat
  sensayCalls : Nat

/-- The Supabase `update({"processed_for_sensay": True}).eq("id", rowId)`
call (src/app.py lines 325-328): sets the flag of exactly that row to true. -/
def markProcessed (store : Nat → Bool) (rowId : Nat) : Nat → Bool :=
  fun j => if j = rowId then true else store j

/-- Fold one iteration's effects into the run state. -/
def applyStep (st : RunState) (row : Row) (step : RowStep) : RunState :=
  { processed_count := st.processed_count + step.processedInc,
    error_count := st.error_count + step.errorInc,
    training_logs := st.training_logs ++ [step.logLine],
    store := if step.marked then markProcessed st.store row.id else st.store,
    sleeps := st.sleeps + (if step.slept then 1 else 0),
    sensayCalls := st.sensayCalls + step.sensayCalls }

/-- The whole `for` loop: rows in fetch order, `i` the enumeration index into
the per-row call environment.  An uncaught exception aborts the loop carrying
the state reached so far. -/
def runRows (sensay_org_secret sensay_api_version replica_uuid : String)
    (calls : Nat → RowCalls) :
    List Row → Nat → RunState → Except (RunState × String) RunState
  | [], _, st => .ok st
  | row :: rest, i, st =>
    match stepRow sensay_org_secret sensay_api_version replica_uuid row (calls i) with
    | .error e => .error (st, e)
    | .ok step =>
        runRows sensay_org_secret sensay_api_version replica_uuid calls
          rest (i + 1) (applyStep st row step)

/-- Every state the loop passes through, in order (initial state included;
on an uncaught exception the trace stops at the state reached). -/
def runRowsStates (sensay_org_secret sensay_api_version replica_uuid : String)
    (calls : Nat → RowCalls) :
    List Row → Nat → RunState → List RunState
  | [], _, st => [st]
  | row :: rest, i, st =>
    match stepRow sensay_org_secret sensay_api_version replica_uuid row (calls i) with
    | .error _ => [st]
    | .ok step =>
        st :: runRowsStates sensay_org_secret sensay_api_version replica_uuid calls
          rest (i + 1) (applyStep st row step)

/-- The per-row effects, in order (empty tail after an uncaught exception). -/
def runRowsSteps (sensay_org_secret sensay_api_version replica_uuid : String)
    (calls : Nat → RowCalls) : List Row → Nat → List RowStep
  | [], _ => []
  | row :: rest, i =>
    match stepRow sensay_org_secret sensay_api_version replica_uuid row (calls i) with
    | .error _ => []
    | .ok step =>
        step :: runRowsSteps sensay_org_secret sensay_api_version replica_uuid calls
          rest (i + 1)

/-- Environment of one press of the training button: the replica's `ownerID`
and `name` fields, the outcome of the Supabase backlog fetch, and the per-row
call outcomes. -/
structure TrainEnv where
  ownerID : Option String
  replicaName : String
  fetch : Except String (List Row)
  calls : Nat → RowCalls

/-- Result of one press of the training button (src/app.py lines 248-344). -/
inductive TrainResult where
  | abortedNoOwner (errMsg : String)
  | abortedFetch (errMsg : String)
  | noWork (infoMsg : String)
  | crashed (stateSoFar : RunState) (exnMsg : String)
  | completed (finalState : RunState) (summary : String) (fullLog : String)

/-- Python truthiness of `slack_user_id_for_training` (`None` or `""` falsy). -/
def pyTruthyStrOpt : Option String → Bool
  | none => false
  | some s => s != ""

def initialRunState (store : Nat → Bool) : RunState :=
  { processed_count := 0, error_count := 0, training_logs := [],
    store := store, sleeps := 0, sensayCalls := 0 }

/-- The `st.success` message after the loop (src/app.py line 342). -/
def finalSummary (replicaName : String) (st : RunState) : String :=
  "Training complete for '" ++ replicaName ++ "'. Successfully trained: " ++
    toString st.processed_count ++ ", Errors: " ++ toString st.error_count ++ "."

/-- Embedding of the training button handler: the owner-id guard (lines
248-250), the backlog fetch with its `try/except` + `st.stop()` (255-278), the
zero-row early stop (266-270), the loop, and the final report (340-342). -/
def runTraining (env : TrainEnv)
    (replica_uuid sensay_org_secret sensay_api_version : String)
    (store0 : Nat → Bool) : TrainResult :=
  if !(pyTruthyStrOpt env.ownerID) then
    .abortedNoOwner "Cannot determine Slack User ID (ownerID) for this replica. Training aborted."
  else
    match env.fetch with
    | .error e => .abortedFetch ("Error fetching messages from Supabase: " ++ e)
    | .ok messages_to_train =>
      if messages_to_train.isEmpty then
        .noWork ("✅ No new messages found in Supabase for user '" ++
          env.ownerID.getD "" ++ "' to train with.")
      else
        match runRows sensay_org_secret sensay_api_version replica_uuid env.calls
            messages_to_train 0 (initialRunState store0) with
        | .error (st, e) => .crashed st e
        | .ok st =>
            .completed st (finalSummary env.replicaName st)
              (String.intercalate "\n" st.training_logs)

/-- Rows successfully processed, over any outcome of the run. -/
def TrainResult.processedCount : TrainResult → Nat
  | .completed st _ _ => st.processed_count
  | .crashed st _ => st.processed_count
  | _ => 0

/-- Rows that hit an error, over any outcome of the run. -/
def TrainResult.errorCount : TrainResult → Nat
  | .completed st _ _ => st.error_count
  | .crashed st _ => st.error_count
  | _ => 0

/-- Sensay API calls made during the run. -/
def TrainResult.sensayCallCount : TrainResult → Nat
  | .completed st _ _ => st.sensayCalls
  | .crashed st _ => st.sensayCalls
  | _ => 0

/-- `time.sleep(0.2)` executions during the run. -/
def TrainResult.sleepCount : TrainResult → Nat
  | .completed st _ _ => st.sleeps
  | .crashed st _ => st.sleeps
  | _ => 0

/-- The backing store's flags after the run. -/
def TrainResult.storeAfter (r : TrainResult) (store0 : Nat → Bool) : Nat → Bool :=
  match r with
  | .completed st _ _ => st.store
  | .crashed st _ => st.store
  | _ => store0

/-- The final summary message, for runs that reach it. -/
def TrainResult.summaryOf : TrainResult → Option String
  | .completed _ s _ => some s
  | _ => none

/-- The state a (possibly aborted) loop run ends in. -/
def stateAfterLoop : Except (RunState × String) RunState → RunState
  | .ok st => st
  | .error (st, _) => st

/-! ## Call-outcome predicates used by the claims -/

/-- The create call (POST `/replicas/{uuid}/training`) succeeds: a 2xx
response whose JSON body is an object with a truthy `success` field and a
truthy `knowledgeBaseID` field. -/
def createCallOk (c : RowCalls) : Prop :=
  ∃ status fields libErr,
    c.createNet = .response status (.jsonBody (.jobj fields)) libErr ∧
    200 ≤ status ∧ status ≤ 299 ∧
    pyTruthyOpt (lookupField fields "success") = true ∧
    pyTruthyOpt (lookupField fields "knowledgeBaseID") = true

/-- The fill call (PUT `/replicas/{uuid}/training/{kb}`) succeeds: a 2xx
response whose JSON body is an object with a truthy `success` field. -/
def fillCallOk (c : RowCalls) : Prop :=
  ∃ status fields libErr,
    c.fillNet = .response status (.jsonBody (.jobj fields)) libErr ∧
    200 ≤ status ∧ status ≤ 299 ∧
    pyTruthyOpt (lookupField fields "success") = true

/-- Every external interaction of the row succeeds. -/
def rowAllOk (c : RowCalls) : Prop :=
  createCallOk c ∧ fillCallOk c ∧ c.markErr = none

/-- The ways a Sensay call registers as failed in the loop's check
`if err or not data or not data.get("success")` without raising: a network
error, a 4xx/5xx response, a non-JSON body, a falsy JSON body, or an object
body without a truthy `success` field. -/
def callFails (net : NetOutcome) : Prop :=
  (∃ msg, net = .netFail msg) ∨
  (∃ status body l, net = .response status body l ∧ raiseForStatus status = true) ∨
  (∃ status s l, net = .response status (.rawBody s) l ∧ raiseForStatus status = false) ∨
  (∃ status j l, net = .response status (.jsonBody j) l ∧ raiseForStatus status = false ∧
     j.truthy = false) ∨
  (∃ status fs l, net = .response status (.jsonBody (.jobj fs)) l ∧
     raiseForStatus status = false ∧ pyTruthyOpt (lookupField fs "success") = false)

/-- A call outcome that cannot make `.get` raise: any truthy JSON body of a
non-raising response is an object.  (A truthy non-dict body would raise
`AttributeError` in the Python loop and abort the whole batch.) -/
def netWf (net : NetOutcome) : Prop :=
  ∀ status j l, net = .response status (.jsonBody j) l → raiseForStatus status = false →
    j.truthy = true → ∃ fs, j = .jobj fs

def rowWf (c : RowCalls) : Prop := netWf c.createNet ∧ netWf c.fillNet

/-- An HTTP-success (2xx) response whose JSON object body lacks a truthy
`success` field (covers an empty object). -/
def httpSuccessNoSuccess (net : NetOutcome) : Prop :=
  ∃ status fs l,
    net = .response status (.jsonBody (.jobj fs)) l ∧ 200 ≤ status ∧ status ≤ 299 ∧
    pyTruthyOpt (lookupField fs "success") = false

/-- The success log line of a row (src/app.py line 330). -/
def successLine (row : Row) (kb : String) : String :=
  "✅ Trained with Supabase Msg ID " ++ toString row.id ++ " (KB ID: " ++ kb ++ ")"

/-- Substring test on character lists (needle occurs inside hay). -/
def listHasInfix (needle : List Char) : List Char → Bool
  | [] => needle.isEmpty
  | c :: t => needle.isPrefixOf (c :: t) || listHasInfix needle t

/-- Substring test on strings. -/
def strHasSub (hay needle : String) : Bool :=
  listHasInfix needle.toList hay.toList

/-! ## Concrete fixtures used by witnesses and counterexamples -/

/-- A row environment where every call succeeds. -/
def okRowCalls : RowCalls :=
  { createNet := .response 200 (.jsonBody (.jobj
      [("success", .jbool true), ("knowledgeBaseID", .jstr "kb1")])) "",
    fillNet := .response 200 (.jsonBody (.jobj [("success", .jbool true)])) "",
    markErr := none }

/-- A row environment whose create call fails with a network error. -/
def failRowCalls : RowCalls :=
  { createNet := .netFail "timeout", fillNet := .netFail "timeout", markErr := none }

def rowOne : Row := { message_content := "hi", slack_message_ts := "111.1", id := 1 }

def rowTwo : Row := { message_content := "bye", slack_message_ts := "222.2", id := 3 }

/-! ## Helper lemmas: the request client -/

theorem raiseForStatus_false_of_2xx {s : Nat} (h1 : 200 ≤ s) (h2 : s ≤ 299) :
    raiseForStatus s = false := by
  simp [raiseForStatus]
  omega

theorem make_sensay_request_jsonOk {method : String} (ep sec ver : String)
    (jd p : Option JVal) (uid : Option String) {status : Nat} {j : JVal} {l : String}
    (hm : supportedMethod method = true) (hs : raiseForStatus status = false) :
    make_sensay_request method ep sec ver jd p uid (.response status (.jsonBody j) l) =
      ⟨some j, none, true⟩ := by
  simp [make_sensay_request, hm, hs]

theorem make_sensay_request_raise {method : String} (ep sec ver : String)
    (jd p : Option JVal) (uid : Option String) {status : Nat} {body : HttpBody} {l : String}
    (hm : supportedMethod method = true) (hs : raiseForStatus status = true) :
    make_sensay_request method ep sec ver jd p uid (.response status body l) =
      ⟨none,
       some (.httpError ("HTTP error occurred: " ++ l) status
         (match body with
          | .jsonBody j => .jsonDetails j
          | .rawBody s => .textDetails s)),
       true⟩ := by
  simp [make_sensay_request, hm, hs]

theorem make_sensay_request_rawBody {method : String} (ep sec ver : String)
    (jd p : Option JVal) (uid : Option String) {status : Nat} {s l : String}
    (hm : supportedMethod method = true) (hs : raiseForStatus status = false) :
    make_sensay_request method ep sec ver jd p uid (.response status (.rawBody s) l) =
      ⟨none, some (.requestError ("Request error occurred: " ++ l)), true⟩ := by
  simp [make_sensay_request, hm, hs]

theorem make_sensay_request_netFail {method : String} (ep sec ver : String)
    (jd p : Option JVal) (uid : Option String) {msg : String}
    (hm : supportedMethod method = true) :
    make_sensay_request method ep sec ver jd p uid (.netFail msg) =
      ⟨none, some (.requestError ("Request error occurred: " ++ msg)), true⟩ := by
  simp [make_sensay_request, hm]

theorem make_sensay_request_unsupported {method : String} (ep sec ver : String)
    (jd p : Option JVal) (uid : Option String) (net : NetOutcome)
    (hm : supportedMethod method = false) :
    make_sensay_request method ep sec ver jd p uid net =
      ⟨none, some .unsupportedMethod, false⟩ := by
  simp [make_sensay_request, hm]

theorem supportedMethod_POST : supportedMethod "POST" = true := by decide

theorem supportedMethod_PUT : supportedMethod "PUT" = true := by decide

/-! ## Helper lemmas: the per-row check -/

theorem callFailCheck_err (e : SensayError) (d : Option JVal) (k : String) :
    callFailCheck (some e) d k = .ok true := by
  simp [callFailCheck]

theorem callFailCheck_falsy {d : Option JVal} (k : String) (h : pyTruthyOpt d = false) :
    callFailCheck none d k = .ok true := by
  cases d with
  | none => simp [callFailCheck, pyTruthyOpt]
  | some v => simp [callFailCheck, h]

theorem callFailCheck_obj (fs : List (String × JVal)) (k : String) :
    callFailCheck none (some (.jobj fs)) k = .ok (!(pyTruthyOpt (lookupField fs k))) := by
  cases fs with
  | nil => simp [callFailCheck, pyTruthyOpt, JVal.truthy, lookupField]
  | cons p rest =>
      simp [callFailCheck, pyTruthyOpt, JVal.truthy, JVal.dictGet, Except.map]

theorem callFailCheck_ok_false {e : Option SensayError} {d : Option JVal} {k : String}
    (h : callFailCheck e d k = .ok false) :
    e = none ∧ ∃ fs, d = some (.jobj fs) ∧ pyTruthyOpt (lookupField fs k) = true := by
  unfold callFailCheck at h
  split_ifs at h with h1 h2
  · simp at h
  · simp at h
  · cases e with
    | some e => simp at h1
    | none =>
      cases d with
      | none => simp at h
      | some j =>
        cases j with
        | jobj fs =>
            refine ⟨rfl, fs, rfl, ?_⟩
            simp [JVal.dictGet, Except.map] at h
            simpa using h
        | jnull => simp [JVal.dictGet, Except.map] at h
        | jbool b => simp [JVal.dictGet, Except.map] at h
        | jnum n => simp [JVal.dictGet, Except.map] at h
        | jstr s => simp [JVal.dictGet, Except.map] at h
        | jarr xs => simp [JVal.dictGet, Except.map] at h

theorem callFailCheck_error {e : Option SensayError} {d : Option JVal} {k msg : String}
    (h : callFailCheck e d k = .error msg) :
    e = none ∧ ∃ j, d = some j ∧ j.truthy = true ∧ ∀ fs, j ≠ .jobj fs := by
  unfold callFailCheck at h
  split_ifs at h with h1 h2
  cases e with
  | some e => simp at h1
  | none =>
    cases d with
    | none => simp at h
    | some j =>
      refine ⟨rfl, j, rfl, by simpa [pyTruthyOpt] using h2, ?_⟩
      intro fs hfs
      subst hfs
      simp [JVal.dictGet, Except.map] at h

theorem make_sensay_request_data_some {method ep sec ver : String}
    {jd p : Option JVal} {uid : Option String} {net : NetOutcome} {j : JVal}
    (h : (make_sensay_request method ep sec ver jd p uid net).data = some j) :
    ∃ s l, net = .response s (.jsonBody j) l ∧ raiseForStatus s = false ∧
      supportedMethod method = true := by
  by_cases h1 : supportedMethod method = true
  · cases net with
    | netFail msg =>
        rw [make_sensay_request_netFail _ _ _ _ _ _ h1] at h
        simp at h
    | response status body l =>
        by_cases h2 : raiseForStatus status = true
        · rw [make_sensay_request_raise _ _ _ _ _ _ h1 h2] at h
          simp at h
        · cases body with
          | jsonBody j2 =>
              rw [make_sensay_request_jsonOk _ _ _ _ _ _ h1 (by simpa using h2)] at h
              simp at h
              exact ⟨status, l, by rw [h], by simpa using h2, h1⟩
          | rawBody s =>
              rw [make_sensay_request_rawBody _ _ _ _ _ _ h1 (by simpa using h2)] at h
              simp at h
  · rw [make_sensay_request_unsupported _ _ _ _ _ _ _ (by simpa using h1)] at h
    simp at h

/-! ## Helper lemmas: the loop body -/

theorem stepRow_allOk (sec ver uuid : String) (row : Row) (c : RowCalls)
    (h : rowAllOk c) :
    ∃ kb, stepRow sec ver uuid row c =
      .ok ⟨.success, successLine row kb, 1, 0, true, true, true, 2⟩ := by
  obtain ⟨⟨s1, fs1, l1, hc, hs1a, hs1b, hsucc1, hkb⟩,
    ⟨s2, fs2, l2, hf, hs2a, hs2b, hsucc2⟩, hmark⟩ := h
  refine ⟨((lookupField fs1 "knowledgeBaseID").getD .jnull).pyStr, ?_⟩
  have e1 : make_sensay_request "POST" ("/replicas/" ++ uuid ++ "/training")
      sec ver (some (.jobj [])) none none c.createNet = ⟨some (.jobj fs1), none, true⟩ := by
    rw [hc]
    exact make_sensay_request_jsonOk _ _ _ _ _ _ supportedMethod_POST
      (raiseForStatus_false_of_2xx hs1a hs1b)
  have e2 : ∀ ep : String, make_sensay_request "PUT" ep sec ver
      (some (.jobj [("rawText", .jstr row.message_content)])) none none c.fillNet =
      ⟨some (.jobj fs2), none, true⟩ := by
    intro ep
    rw [hf]
    exact make_sensay_request_jsonOk _ _ _ _ _ _ supportedMethod_PUT
      (raiseForStatus_false_of_2xx hs2a hs2b)
  simp only [stepRow, e1, e2, callFailCheck_obj, hsucc1, hsucc2, hkb, hmark,
    Bool.not_true, Option.getD, successLine]
  simp

theorem stepRow_createFails (sec ver uuid : String) (row : Row) (c : RowCalls)
    (h : callFails c.createNet) :
    ∃ tail, stepRow sec ver uuid row c =
      .ok ⟨.createFailed,
        "❌ Failed to create Sensay KB entry for msg_ts " ++ row.slack_message_ts ++
          ": " ++ tail,
        0, 1, false, false, false, 1⟩ := by
  have hch : callFailCheck
      (make_sensay_request "POST" ("/replicas/" ++ uuid ++ "/training")
        sec ver (some (.jobj [])) none none c.createNet).error
      (make_sensay_request "POST" ("/replicas/" ++ uuid ++ "/training")
        sec ver (some (.jobj [])) none none c.createNet).data "success" = .ok true := by
    rcases h with ⟨msg, hn⟩ | ⟨s, b, l, hn, hr⟩ | ⟨s, s', l, hn, hr⟩ |
      ⟨s, j, l, hn, hr, ht⟩ | ⟨s, fs, l, hn, hr, hs⟩
    · rw [hn, make_sensay_request_netFail _ _ _ _ _ _ supportedMethod_POST]
      exact callFailCheck_err _ _ _
    · rw [hn, make_sensay_request_raise _ _ _ _ _ _ supportedMethod_POST hr]
      exact callFailCheck_err _ _ _
    · rw [hn, make_sensay_request_rawBody _ _ _ _ _ _ supportedMethod_POST hr]
      exact callFailCheck_err _ _ _
    · rw [hn, make_sensay_request_jsonOk _ _ _ _ _ _ supportedMethod_POST hr]
      exact callFailCheck_falsy _ (by simpa [pyTruthyOpt] using ht)
    · rw [hn, make_sensay_request_jsonOk _ _ _ _ _ _ supportedMethod_POST hr]
      have hx := callFailCheck_obj fs "success"
      rw [hs] at hx
      simpa using hx
  exact ⟨renderPyOr
      (make_sensay_request "POST" ("/replicas/" ++ uuid ++ "/training")
        sec ver (some (.jobj [])) none none c.createNet).error
      (make_sensay_request "POST" ("/replicas/" ++ uuid ++ "/training")
        sec ver (some (.jobj [])) none none c.createNet).data,
    by simp only [stepRow, hch]⟩

theorem stepRow_missingKb (sec ver uuid : String) (row : Row) (c : RowCalls)
    {s1 : Nat} {fs1 : List (String × JVal)} {l1 : String}
    (hc : c.createNet = .response s1 (.jsonBody (.jobj fs1)) l1)
    (hs1 : raiseForStatus s1 = false)
    (hsucc1 : pyTruthyOpt (lookupField fs1 "success") = true)
    (hkb : pyTruthyOpt (lookupField fs1 "knowledgeBaseID") = false) :
    stepRow sec ver uuid row c =
      .ok ⟨.missingKbId,
        "❌ Missing knowledgeBaseID for msg_ts " ++ row.slack_message_ts ++
          " after KB entry creation.",
        0, 1, false, false, false, 1⟩ := by
  have e1 : make_sensay_request "POST" ("/replicas/" ++ uuid ++ "/training")
      sec ver (some (.jobj [])) none none c.createNet = ⟨some (.jobj fs1), none, true⟩ := by
    rw [hc]
    exact make_sensay_request_jsonOk _ _ _ _ _ _ supportedMethod_POST hs1
  simp only [stepRow, e1, callFailCheck_obj, hsucc1, hkb, Bool.not_true, Bool.not_false]
  simp

theorem stepRow_fillFails (sec ver uuid : String) (row : Row) (c : RowCalls)
    {s1 : Nat} {fs1 : List (String × JVal)} {l1 : String}
    (hc : c.createNet = .response s1 (.jsonBody (.jobj fs1)) l1)
    (hs1 : raiseForStatus s1 = false)
    (hsucc1 : pyTruthyOpt (lookupField fs1 "success") = true)
    (hkb : pyTruthyOpt (lookupField fs1 "knowledgeBaseID") = true)
    (h : callFails c.fillNet) :
    ∃ kb tail, stepRow sec ver uuid row c =
      .ok ⟨.fillFailed,
        "❌ Failed to add text to Sensay KB entry " ++ kb ++ " (msg_ts " ++
          row.slack_message_ts ++ "): " ++ tail,
        0, 1, false, true, true, 2⟩ := by
  have e1 : make_sensay_request "POST" ("/replicas/" ++ uuid ++ "/training")
      sec ver (some (.jobj [])) none none c.createNet = ⟨some (.jobj fs1), none, true⟩ := by
    rw [hc]
    exact make_sensay_request_jsonOk _ _ _ _ _ _ supportedMethod_POST hs1
  have hch : ∀ ep : String, callFailCheck
      (make_sensay_request "PUT" ep sec ver
        (some (.jobj [("rawText", .jstr row.message_content)])) none none c.fillNet).error
      (make_sensay_request "PUT" ep sec ver
        (some (.jobj [("rawText", .jstr row.message_content)])) none none c.fillNet).data
      "success" = .ok true := by
    intro ep
    rcases h with ⟨msg, hn⟩ | ⟨s, b, l, hn, hr⟩ | ⟨s, s', l, hn, hr⟩ |
      ⟨s, j, l, hn, hr, ht⟩ | ⟨s, fs, l, hn, hr, hs⟩
    · rw [hn, make_sensay_request_netFail _ _ _ _ _ _ supportedMethod_PUT]
      exact callFailCheck_err _ _ _
    · rw [hn, make_sensay_request_raise _ _ _ _ _ _ supportedMethod_PUT hr]
      exact callFailCheck_err _ _ _
    · rw [hn, make_sensay_request_rawBody _ _ _ _ _ _ supportedMethod_PUT hr]
      exact callFailCheck_err _ _ _
    · rw [hn, make_sensay_request_jsonOk _ _ _ _ _ _ supportedMethod_PUT hr]
      exact callFailCheck_falsy _ (by simpa [pyTruthyOpt] using ht)
    · rw [hn, make_sensay_request_jsonOk _ _ _ _ _ _ supportedMethod_PUT hr,
        callFailCheck_obj, hs]
      simp
  refine ⟨((lookupField fs1 "knowledgeBaseID").getD .jnull).pyStr,
    renderPyOr
      (make_sensay_request "PUT"
        ("/replicas/" ++ uuid ++ "/training/" ++
          ((lookupField fs1 "knowledgeBaseID").getD .jnull).pyStr)
        sec ver (some (.jobj [("rawText", .jstr row.message_content)])) none none
        c.fillNet).error
      (make_sensay_request "PUT"
        ("/replicas/" ++ uuid ++ "/training/" ++
          ((lookupField fs1 "knowledgeBaseID").getD .jnull).pyStr)
        sec ver (some (.jobj [("rawText", .jstr row.message_content)])) none none
        c.fillNet).data, ?_⟩
  simp only [stepRow, e1, callFailCheck_obj, hsucc1, hkb, Bool.not_true, hch]
  simp

theorem stepRow_markFails (sec ver uuid : String) (row : Row) (c : RowCalls)
    (hcreate : createCallOk c) (hfill : fillCallOk c) {e : String}
    (hmark : c.markErr = some e) :
    stepRow sec ver uuid row c =
      .ok ⟨.markFailed,
        "⚠️ Trained Sensay with msg_ts " ++ row.slack_message_ts ++
          ", but FAILED to update Supabase: " ++ e,
        0, 1, false, true, true, 2⟩ := by
  obtain ⟨s1, fs1, l1, hc, hs1a, hs1b, hsucc1, hkb⟩ := hcreate
  obtain ⟨s2, fs2, l2, hf, hs2a, hs2b, hsucc2⟩ := hfill
  have e1 : make_sensay_request "POST" ("/replicas/" ++ uuid ++ "/training")
      sec ver (some (.jobj [])) none none c.createNet = ⟨some (.jobj fs1), none, true⟩ := by
    rw [hc]
    exact make_sensay_request_jsonOk _ _ _ _ _ _ supportedMethod_POST
      (raiseForStatus_false_of_2xx hs1a hs1b)
  have e2 : ∀ ep : String, make_sensay_request "PUT" ep sec ver
      (some (.jobj [("rawText", .jstr row.message_content)])) none none c.fillNet =
      ⟨some (.jobj fs2), none, true⟩ := by
    intro ep
    rw [hf]
    exact make_sensay_request_jsonOk _ _ _ _ _ _ supportedMethod_PUT
      (raiseForStatus_false_of_2xx hs2a hs2b)
  simp only [stepRow, e1, e2, callFailCheck_obj, hsucc1, hsucc2, hkb, hmark,
    Bool.not_true]
  simp

theorem stepRow_ok_inv {sec ver uuid : String} {row : Row} {c : RowCalls} {step : RowStep}
    (h : stepRow sec ver uuid row c = .ok step) :
    step.processedInc + step.errorInc = 1 ∧
    step.slept = step.fillAttempted ∧
    (step.marked = true ↔ step.outcome = .success) ∧
    (step.slept = false ↔ (step.outcome = .createFailed ∨ step.outcome = .missingKbId)) ∧
    (step.outcome = .success → step.processedInc = 1 ∧ step.errorInc = 0) := by
  simp only [stepRow] at h
  repeat' split at h
  any_goals (injection h with h
             subst h
             simp)
  all_goals try cases h

theorem stepRow_wf_ok (sec ver uuid : String) (row : Row) (c : RowCalls)
    (hwf : rowWf c) : ∃ step, stepRow sec ver uuid row c = .ok step := by
  rcases hres : stepRow sec ver uuid row c with e | step
  · exfalso
    simp only [stepRow] at hres
    repeat' split at hres
    any_goals cases hres
    · -- the create check raised: its body was a truthy non-dict
      rename_i hcc
      obtain ⟨he, j, hd, ht, hobj⟩ := callFailCheck_error hcc
      obtain ⟨sx, lx, hnet, hrs, _⟩ := make_sensay_request_data_some hd
      obtain ⟨fs, hfs⟩ := hwf.1 sx j lx hnet hrs ht
      exact hobj fs hfs
    · -- the fill check raised: its body was a truthy non-dict
      rename_i hcc
      obtain ⟨he, j, hd, ht, hobj⟩ := callFailCheck_error hcc
      obtain ⟨sx, lx, hnet, hrs, _⟩ := make_sensay_request_data_some hd
      obtain ⟨fs, hfs⟩ := hwf.2 sx j lx hnet hrs ht
      exact hobj fs hfs
    · -- the create check passed but its body was not a dict: impossible
      rename_i hcc hopt hnomatch
      obtain ⟨he, fs, hd, _⟩ := callFailCheck_ok_false hcc
      exact hnomatch fs hd
  · exact ⟨step, rfl⟩

/-! ## Helper lemmas: the loop -/

theorem applyStep_store_true {st : RunState} {row : Row} {step : RowStep} {j : Nat}
    (h : st.store j = true) : (applyStep st row step).store j = true := by
  simp only [applyStep]
  split
  · simp only [markProcessed]
    split <;> simp [h]
  · exact h

theorem runRows_bound (sec ver uuid : String) (calls : Nat → RowCalls) :
    ∀ (rows : List Row) (i : Nat) (st : RunState),
    ∀ st' ∈ runRowsStates sec ver uuid calls rows i st,
      st'.processed_count + st'.error_count ≤
        st.processed_count + st.error_count + rows.length := by
  intro rows
  induction rows with
  | nil =>
      intro i st st' hmem
      simp only [runRowsStates, List.mem_singleton] at hmem
      subst hmem
      simp
  | cons row rest ih =>
      intro i st st' hmem
      simp only [runRowsStates] at hmem
      rcases hstep : stepRow sec ver uuid row (calls i) with e | step <;>
        rw [hstep] at hmem
      · simp only [List.mem_singleton] at hmem
        subst hmem
        simp
      · simp only [List.mem_cons] at hmem
        rcases hmem with hmem | hmem
        · subst hmem; simp
        · have hsum := (stepRow_ok_inv hstep).1
          have := ih (i + 1) (applyStep st row step) st' hmem
          simp only [applyStep] at this
          simp only [List.length_cons]
          omega

theorem runRows_ok_counts (sec ver uuid : String) (calls : Nat → RowCalls) :
    ∀ (rows : List Row) (i : Nat) (st final : RunState),
    runRows sec ver uuid calls rows i st = .ok final →
      final.processed_count + final.error_count =
        st.processed_count + st.error_count + rows.length ∧
      final.training_logs.length = st.training_logs.length + rows.length := by
  intro rows
  induction rows with
  | nil =>
      intro i st final h
      simp only [runRows] at h
      injection h with h
      subst h
      simp
  | cons row rest ih =>
      intro i st final h
      simp only [runRows] at h
      rcases hstep : stepRow sec ver uuid row (calls i) with e | step <;>
        rw [hstep] at h
      · cases h
      · have hsum := (stepRow_ok_inv hstep).1
        have := ih (i + 1) (applyStep st row step) final h
        simp [applyStep] at this
        simp only [List.length_cons]
        omega

theorem runRows_store_mono (sec ver uuid : String) (calls : Nat → RowCalls) :
    ∀ (rows : List Row) (i : Nat) (st : RunState) (j : Nat),
    st.store j = true →
      (stateAfterLoop (runRows sec ver uuid calls rows i st)).store j = true := by
  intro rows
  induction rows with
  | nil =>
      intro i st j h
      simpa [runRows, stateAfterLoop] using h
  | cons row rest ih =>
      intro i st j h
      simp only [runRows]
      rcases hstep : stepRow sec ver uuid row (calls i) with e | step
      · simpa [stateAfterLoop] using h
      · exact ih (i + 1) (applyStep st row step) j (applyStep_store_true h)

theorem runRows_store_unchanged (sec ver uuid : String) (calls : Nat → RowCalls) :
    ∀ (rows : List Row) (i : Nat) (st : RunState) (j : Nat),
    (∀ k row', rows.get? k = some row' → row'.id = j →
      ∀ stp, stepRow sec ver uuid row' (calls (i + k)) = .ok stp → stp.marked = false) →
      (stateAfterLoop (runRows sec ver uuid calls rows i st)).store j = st.store j := by
  intro rows
  induction rows with
  | nil =>
      intro i st j _
      simp [runRows, stateAfterLoop]
  | cons row rest ih =>
      intro i st j h
      simp only [runRows]
      rcases hstep : stepRow sec ver uuid row (calls i) with e | step
      · simp [stateAfterLoop]
      · have hrest : ∀ k row', rest.get? k = some row' → row'.id = j →
            ∀ stp, stepRow sec ver uuid row' (calls (i + 1 + k)) = .ok stp →
              stp.marked = false := by
          intro k row' hk hid stp hstp
          refine h (k + 1) row' (by simpa using hk) hid stp ?_
          rwa [show i + (k + 1) = i + 1 + k by omega]
        rw [ih (i + 1) (applyStep st row step) j hrest]
        simp only [applyStep]
        split
        · next hmarked =>
            by_cases hid : row.id = j
            · have := h 0 row (by simp) hid step (by simpa using hstep)
              rw [this] at hmarked
              cases hmarked
            · simp only [markProcessed]
              split
              · next h' => exact absurd h'.symm hid
              · rfl
        · rfl

theorem runRows_wf_ok (sec ver uuid : String) (calls : Nat → RowCalls) :
    ∀ (rows : List Row) (i : Nat) (st : RunState),
    (∀ k, k < rows.length → rowWf (calls (i + k))) →
      ∃ final, runRows sec ver uuid calls rows i st = .ok final := by
  intro rows
  induction rows with
  | nil =>
      intro i st _
      exact ⟨st, rfl⟩
  | cons row rest ih =>
      intro i st h
      have h0 : rowWf (calls i) := by simpa using h 0 (by simp)
      obtain ⟨step, hstep⟩ := stepRow_wf_ok sec ver uuid row (calls i) h0
      have hrest : ∀ k, k < rest.length → rowWf (calls (i + 1 + k)) := by
        intro k hk
        have := h (k + 1) (by simpa using Nat.succ_lt_succ hk)
        rwa [show i + (k + 1) = i + 1 + k by omega] at this
      obtain ⟨final, hfin⟩ := ih (i + 1) (applyStep st row step) hrest
      refine ⟨final, ?_⟩
      simp only [runRows, hstep]
      exact hfin

theorem runRowsSteps_get (sec ver uuid : String) (calls : Nat → RowCalls) :
    ∀ (rows : List Row) (i : Nat),
    (∀ k, k < rows.length → rowWf (calls (i + k))) →
      ∀ k row, rows.get? k = some row →
        ∃ stp, (runRowsSteps sec ver uuid calls rows i).get? k = some stp ∧
          stepRow sec ver uuid row (calls (i + k)) = .ok stp := by
  intro rows
  induction rows with
  | nil =>
      intro i _ k row hk
      simp at hk
  | cons row0 rest ih =>
      intro i h k row hk
      have h0 : rowWf (calls i) := by simpa using h 0 (by simp)
      obtain ⟨step0, hstep0⟩ := stepRow_wf_ok sec ver uuid row0 (calls i) h0
      have hrest : ∀ k', k' < rest.length → rowWf (calls (i + 1 + k')) := by
        intro k' hk'
        have := h (k' + 1) (by simpa using Nat.succ_lt_succ hk')
        rwa [show i + (k' + 1) = i + 1 + k' by omega] at this
      cases k with
      | zero =>
          simp only [List.get?] at hk
          injection hk with hk
          subst hk
          exact ⟨step0, by simp [runRowsSteps, hstep0], by simpa using hstep0⟩
      | succ k' =>
          obtain ⟨stp, hget, hstp⟩ := ih (i + 1) hrest k' row (by simpa using hk)
          refine ⟨stp, ?_, ?_⟩
          · simp only [runRowsSteps, hstep0, List.get?]
            exact hget
          · rwa [show i + (k' + 1) = i + 1 + k' by omega]

theorem runRows_allOk (sec ver uuid : String) (calls : Nat → RowCalls) :
    ∀ (rows : List Row) (i : Nat) (st : RunState),
    (∀ k, k < rows.length → rowAllOk (calls (i + k))) →
    ∃ final, runRows sec ver uuid calls rows i st = .ok final ∧
      final.processed_count = st.processed_count + rows.length ∧
      final.error_count = st.error_count ∧
      (∃ newLogs, final.training_logs = st.training_logs ++ newLogs ∧
        List.Forall₂ (fun (r : Row) (l : String) => ∃ kb, l = successLine r kb)
          rows newLogs) ∧
      (∀ r ∈ rows, final.store r.id = true) ∧
      (∀ j, st.store j = true → final.store j = true) ∧
      final.sleeps = st.sleeps + rows.length ∧
      final.sensayCalls = st.sensayCalls + 2 * rows.length := by
  intro rows
  induction rows with
  | nil =>
      intro i st _
      exact ⟨st, rfl, by simp, rfl, ⟨[], by simp, .nil⟩, by simp,
        fun j h => h, by simp, by simp⟩
  | cons row rest ih =>
      intro i st h
      have h0 : rowAllOk (calls i) := by simpa using h 0 (by simp)
      obtain ⟨kb, hstep⟩ := stepRow_allOk sec ver uuid row (calls i) h0
      have hrest : ∀ k, k < rest.length → rowAllOk (calls (i + 1 + k)) := by
        intro k hk
        have := h (k + 1) (by simpa using Nat.succ_lt_succ hk)
        rwa [show i + (k + 1) = i + 1 + k by omega] at this
      obtain ⟨final, hrun, hp, he, ⟨newLogs, hlogs, hfa⟩, hstore, hmono, hsl, hsc⟩ :=
        ih (i + 1)
          (applyStep st row ⟨.success, successLine row kb, 1, 0, true, true, true, 2⟩) hrest
      refine ⟨final, ?_, ?_, ?_, ?_, ?_, ?_, ?_, ?_⟩
      · simp only [runRows, hstep]
        exact hrun
      · simp [applyStep] at hp
        simp only [List.length_cons]
        omega
      · simpa [applyStep] using he
      · refine ⟨successLine row kb :: newLogs, ?_, .cons ⟨kb, rfl⟩ hfa⟩
        rw [hlogs]
        simp [applyStep]
      · intro r hr
        rcases List.mem_cons.mp hr with hr | hr
        · subst hr
          apply hmono
          simp [applyStep, markProcessed]
        · exact hstore r hr
      · intro j hj
        exact hmono j (applyStep_store_true hj)
      · simp [applyStep] at hsl
        simp only [List.length_cons]
        omega
      · simp [applyStep] at hsc
        simp only [List.length_cons]
        omega


theorem okRowCalls_wf : rowWf okRowCalls := by
  constructor <;> intro status j l hnet hrs ht
  · injection hnet with h1 h2 h3
    injection h2 with h2
    exact ⟨_, h2.symm⟩
  · injection hnet with h1 h2 h3
    injection h2 with h2
    exact ⟨_, h2.symm⟩

theorem failRowCalls_wf : rowWf failRowCalls := by
  constructor <;> intro status j l hnet hrs ht <;> simp [failRowCalls] at hnet


theorem runTraining_completes (env : TrainEnv) (uuid sec ver : String)
    (store0 : Nat → Bool) (rows : List Row)
    (howner : pyTruthyStrOpt env.ownerID = true)
    (hfetch : env.fetch = .ok rows)
    (hne : rows ≠ [])
    (hwf : ∀ k, k < rows.length → rowWf (env.calls k)) :
    ∃ st, runTraining env uuid sec ver store0 =
        .completed st (finalSummary env.replicaName st)
          (String.intercalate "\n" st.training_logs) ∧
      st.training_logs.length = rows.length ∧
      st.processed_count + st.error_count = rows.length := by
  obtain ⟨final, hfin⟩ := runRows_wf_ok sec ver uuid env.calls rows 0
    (initialRunState store0) (by simpa using hwf)
  have hcounts := runRows_ok_counts sec ver uuid env.calls rows 0
    (initialRunState store0) final hfin
  have hne2 : rows.isEmpty = false := by
    cases rows with
    | nil => exact absurd rfl hne
    | cons a l => rfl
  refine ⟨final, ?_, ?_, ?_⟩
  · simp only [runTraining, howner, hfetch, hne2, hfin, Bool.not_true]
    rfl
  · simpa [initialRunState] using hcounts.2
  · simpa [initialRunState] using hcounts.1


/-! ## C1 -/

/-- C1: for every backlog of N rows where every remote create call, every
remote fill call and every store mark-processed call succeeds, the training
run completes with processed count == N, error count == 0, the processed flag
set true for all N rows, and the training log containing exactly N success
lines, one per row, in fetch order. -/
theorem claim1_allOk_run (env : TrainEnv) (uuid sec ver : String)
    (store0 : Nat → Bool) (rows : List Row)
    (howner : pyTruthyStrOpt env.ownerID = true)
    (hfetch : env.fetch = .ok rows)
    (hne : rows ≠ [])
    (hok : ∀ k, k < rows.length → rowAllOk (env.calls k)) :
    ∃ st, runTraining env uuid sec ver store0 =
        .completed st (finalSummary env.replicaName st)
          (String.intercalate "\n" st.training_logs) ∧
      st.processed_count = rows.length ∧
      st.error_count = 0 ∧
      (∀ r ∈ rows, st.store r.id = true) ∧
      List.Forall₂ (fun (r : Row) (l : String) => ∃ kb, l = successLine r kb)
        rows st.training_logs := by
  obtain ⟨final, hrun, hp, he, ⟨newLogs, hlogs, hfa⟩, hstore, hmono, hsl, hsc⟩ :=
    runRows_allOk sec ver uuid env.calls rows 0 (initialRunState store0)
      (by simpa using hok)
  have hne' : rows.isEmpty = false := by
    cases rows with
    | nil => exact absurd rfl hne
    | cons a l => rfl
  have hlogs' : final.training_logs = newLogs := by
    simpa [initialRunState] using hlogs
  refine ⟨final, ?_, ?_, ?_, hstore, ?_⟩
  · simp only [runTraining, howner, hfetch, hne', hrun, Bool.not_true]
    rfl
  · simpa [initialRunState] using hp
  · simpa [initialRunState] using he
  · rw [hlogs']
    exact hfa

/-- Witness for C1 at a concrete two-row backlog with all calls succeeding. -/
theorem claim1_witness :
    ∃ st, runTraining
        { ownerID := some "U1", replicaName := "Rep",
          fetch := .ok [rowOne, rowTwo], calls := fun _ => okRowCalls }
        "uuid-1" "sec" "ver" (fun _ => false) =
        .completed st
          (finalSummary "Rep" st)
          (String.intercalate "\n" st.training_logs) ∧
      st.processed_count = [rowOne, rowTwo].length ∧
      st.error_count = 0 ∧
      (∀ r ∈ [rowOne, rowTwo], st.store r.id = true) ∧
      List.Forall₂ (fun (r : Row) (l : String) => ∃ kb, l = successLine r kb)
        [rowOne, rowTwo] st.training_logs :=
  claim1_allOk_run
    { ownerID := some "U1", replicaName := "Rep",
      fetch := .ok [rowOne, rowTwo], calls := fun _ => okRowCalls }
    "uuid-1" "sec" "ver" (fun _ => false) [rowOne, rowTwo]
    rfl rfl (by simp)
    (fun k hk =>
      ⟨⟨200, [("success", .jbool true), ("knowledgeBaseID", .jstr "kb1")], "",
        rfl, by omega, by omega, rfl, rfl⟩,
       ⟨200, [("success", .jbool true)], "", rfl, by omega, by omega, rfl⟩,
       rfl⟩)


/-! ## C2 -/

/-- C2: over any backlog and any pattern of call outcomes, at every point of
the training loop processed count + error count is at most the total row
count, and whenever the loop runs to completion processed count + error
count equals the total (each row bumps exactly one of the two counters
exactly once). -/
theorem claim2_counter_invariant (sec ver uuid : String) (calls : Nat → RowCalls)
    (rows : List Row) (store0 : Nat → Bool) :
    (∀ st' ∈ runRowsStates sec ver uuid calls rows 0 (initialRunState store0),
      st'.processed_count + st'.error_count ≤ rows.length) ∧
    (∀ final, runRows sec ver uuid calls rows 0 (initialRunState store0) = .ok final →
      final.processed_count + final.error_count = rows.length) := by
  constructor
  · intro st' hmem
    have := runRows_bound sec ver uuid calls rows 0 (initialRunState store0) st' hmem
    simpa [initialRunState] using this
  · intro final hfin
    have := (runRows_ok_counts sec ver uuid calls rows 0 (initialRunState store0)
      final hfin).1
    simpa [initialRunState] using this

/-- Witness for C2 at a concrete run: one succeeding and one failing row. -/
theorem claim2_witness :
    (initialRunState (fun _ => false)).processed_count +
        (initialRunState (fun _ => false)).error_count ≤ [rowOne, rowTwo].length ∧
    (stateAfterLoop (runRows "sec" "ver" "uuid-1"
        (fun i => if i = 0 then okRowCalls else failRowCalls)
        [rowOne, rowTwo] 0 (initialRunState (fun _ => false)))).processed_count +
      (stateAfterLoop (runRows "sec" "ver" "uuid-1"
        (fun i => if i = 0 then okRowCalls else failRowCalls)
        [rowOne, rowTwo] 0 (initialRunState (fun _ => false)))).error_count =
      [rowOne, rowTwo].length := by
  have h := claim2_counter_invariant "sec" "ver" "uuid-1"
    (fun i => if i = 0 then okRowCalls else failRowCalls) [rowOne, rowTwo]
    (fun _ => false)
  constructor
  · refine h.1 (initialRunState (fun _ => false)) ?_
    rw [show runRowsStates "sec" "ver" "uuid-1"
      (fun i => if i = 0 then okRowCalls else failRowCalls)
      [rowOne, rowTwo] 0 (initialRunState (fun _ => false)) =
        initialRunState (fun _ => false) ::
          runRowsStates "sec" "ver" "uuid-1"
            (fun i => if i = 0 then okRowCalls else failRowCalls)
            [rowTwo] 1 (applyStep (initialRunState (fun _ => false)) rowOne
              { outcome := .success, logLine := successLine rowOne "kb1",
                processedInc := 1, errorInc := 0, marked := true,
                fillAttempted := true, slept := true, sensayCalls := 2 }) from rfl]
    exact List.mem_cons_self _ _
  · exact h.2 _ rfl


/-! ## C3 -/

/-- C3 counterexample: a one-row backlog whose create call fails is handled
(error count 1) yet `time.sleep(0.2)` never runs, because the create-failure
branch `continue`s past the sleep — refuting "the loop waits the fixed delay
after every row regardless of outcome". -/
theorem claim3_counterexample :
    (runTraining
        { ownerID := some "U1", replicaName := "Rep",
          fetch := .ok [rowOne], calls := fun _ => failRowCalls }
        "uuid-1" "sec" "ver" (fun _ => false)).errorCount = 1 ∧
    (runTraining
        { ownerID := some "U1", replicaName := "Rep",
          fetch := .ok [rowOne], calls := fun _ => failRowCalls }
        "uuid-1" "sec" "ver" (fun _ => false)).sleepCount = 0 := by
  constructor <;> rfl

/-- C3 (amended): the fixed ≈0.2 delay runs for exactly the rows that reach
the fill (PUT) call — fill failure, mark failure or full success; rows whose
create call fails or whose create response lacks a knowledge-base id skip the
delay via `continue`. -/
theorem claim3_sleep_iff_fill (sec ver uuid : String) (row : Row) (c : RowCalls)
    (step : RowStep) (h : stepRow sec ver uuid row c = .ok step) :
    step.slept = step.fillAttempted ∧
    ((step.outcome = .createFailed ∨ step.outcome = .missingKbId) ↔
      step.slept = false) ∧
    ((step.outcome = .fillFailed ∨ step.outcome = .markFailed ∨
        step.outcome = .success) ↔ step.slept = true) := by
  have hinv := stepRow_ok_inv h
  refine ⟨hinv.2.1, hinv.2.2.2.1.symm, ?_⟩
  constructor
  · intro hout
    cases hsl : step.slept
    · rcases hinv.2.2.2.1.mp hsl with h1 | h1 <;>
        rcases hout with h2 | h2 | h2 <;> rw [h1] at h2 <;> cases h2
    · rfl
  · intro hsl
    rcases houtc : step.outcome with _ | _ | _ | _ | _
    · rw [(hinv.2.2.2.1.mpr (Or.inl houtc) : step.slept = false)] at hsl
      cases hsl
    · rw [(hinv.2.2.2.1.mpr (Or.inr houtc) : step.slept = false)] at hsl
      cases hsl
    · exact Or.inl rfl
    · exact Or.inr (Or.inl rfl)
    · exact Or.inr (Or.inr rfl)

/-- Witness for the amended C3 at a concrete fill-failing row (the delay runs)
— applying the amended theorem at an explicit input. -/
theorem claim3_witness :
    ∃ step, stepRow "sec" "ver" "uuid-1" rowOne
        { createNet := okRowCalls.createNet, fillNet := .netFail "timeout",
          markErr := none } = .ok step ∧
      step.slept = step.fillAttempted ∧ step.slept = true := by
  obtain ⟨kb, tail, hstep⟩ := stepRow_fillFails "sec" "ver" "uuid-1" rowOne
    { createNet := okRowCalls.createNet, fillNet := .netFail "timeout",
      markErr := none }
    rfl (by decide) rfl rfl (Or.inl ⟨"timeout", rfl⟩)
  exact ⟨_, hstep,
    (claim3_sleep_iff_fill "sec" "ver" "uuid-1" rowOne _ _ hstep).1, rfl⟩


/-! ## C4 -/

/-- C4 counterexample: a 304 response (non-2xx) with a JSON body is returned
as data with no error, because `raise_for_status` raises only for 4xx/5xx —
refuting "on a non-2xx response it returns an error carrying the HTTP status
code". -/
theorem claim4_counterexample :
    ¬ (200 ≤ 304 ∧ 304 ≤ 299) ∧
    (make_sensay_request "GET" "/replicas" "sec" "ver" none none none
        (.response 304 (.jsonBody (.jobj [("success", .jbool true)])) "err")).error =
      none ∧
    (make_sensay_request "GET" "/replicas" "sec" "ver" none none none
        (.response 304 (.jsonBody (.jobj [("success", .jbool true)])) "err")).data =
      some (.jobj [("success", .jbool true)]) :=
  ⟨by omega, rfl, rfl⟩

/-- C4 (amended): `make_sensay_request` never raises and always returns a
discriminated (data, error) pair (data present iff error absent).  On a
response whose JSON body parses and whose status is not 4xx/5xx (2xx, but also
3xx) it returns the parsed body with no error; on a 4xx/5xx response it
returns an error carrying the status code and the parsed (or raw-text) error
body; on a non-JSON body of a non-raising response, and on a network failure,
it returns an error without a status code; an unsupported verb yields a local
error with no network call. -/
theorem claim4_request_contract (method ep sec ver : String) (jd p : Option JVal)
    (uid : Option String) (net : NetOutcome) :
    (supportedMethod method = false →
      make_sensay_request method ep sec ver jd p uid net =
        ⟨none, some .unsupportedMethod, false⟩) ∧
    (∀ status j l, supportedMethod method = true →
      net = .response status (.jsonBody j) l → raiseForStatus status = false →
      make_sensay_request method ep sec ver jd p uid net = ⟨some j, none, true⟩) ∧
    (∀ status body l, supportedMethod method = true →
      net = .response status body l → raiseForStatus status = true →
      ∃ e, make_sensay_request method ep sec ver jd p uid net = ⟨none, some e, true⟩ ∧
        e.statusCode = some status ∧
        e = .httpError ("HTTP error occurred: " ++ l) status
          (match body with
           | .jsonBody j => .jsonDetails j
           | .rawBody s2 => .textDetails s2)) ∧
    (∀ status s2 l, supportedMethod method = true →
      net = .response status (.rawBody s2) l → raiseForStatus status = false →
      ∃ e, make_sensay_request method ep sec ver jd p uid net = ⟨none, some e, true⟩ ∧
        e.statusCode = none) ∧
    (∀ msg, supportedMethod method = true → net = .netFail msg →
      ∃ e, make_sensay_request method ep sec ver jd p uid net = ⟨none, some e, true⟩ ∧
        e.statusCode = none) ∧
    ((make_sensay_request method ep sec ver jd p uid net).data.isSome ↔
      (make_sensay_request method ep sec ver jd p uid net).error = none) := by
  refine ⟨?_, ?_, ?_, ?_, ?_, ?_⟩
  · intro h
    exact make_sensay_request_unsupported _ _ _ _ _ _ _ h
  · intro status j l hm hnet hs
    rw [hnet]
    exact make_sensay_request_jsonOk _ _ _ _ _ _ hm hs
  · intro status body l hm hnet hs
    rw [hnet, make_sensay_request_raise _ _ _ _ _ _ hm hs]
    exact ⟨_, rfl, rfl, rfl⟩
  · intro status s2 l hm hnet hs
    rw [hnet, make_sensay_request_rawBody _ _ _ _ _ _ hm hs]
    exact ⟨_, rfl, rfl⟩
  · intro msg hm hnet
    rw [hnet, make_sensay_request_netFail _ _ _ _ _ _ hm]
    exact ⟨_, rfl, rfl⟩
  · by_cases hm : supportedMethod method = true
    · cases net with
      | netFail msg =>
          rw [make_sensay_request_netFail _ _ _ _ _ _ hm]
          simp
      | response status body l =>
          by_cases hs : raiseForStatus status = true
          · rw [make_sensay_request_raise _ _ _ _ _ _ hm hs]
            simp
          · cases body with
            | jsonBody j =>
                rw [make_sensay_request_jsonOk _ _ _ _ _ _ hm (by simpa using hs)]
                simp
            | rawBody s2 =>
                rw [make_sensay_request_rawBody _ _ _ _ _ _ hm (by simpa using hs)]
                simp
    · rw [make_sensay_request_unsupported _ _ _ _ _ _ _ (by simpa using hm)]
      simp

/-- Witness for the amended C4: a concrete 200/JSON call returns the body,
and a concrete unsupported verb returns the local error without calling. -/
theorem claim4_witness :
    make_sensay_request "GET" "/users/u" "sec" "ver" none none none
        (.response 200 (.jsonBody (.jobj [("id", .jstr "u")])) "") =
      ⟨some (.jobj [("id", .jstr "u")]), none, true⟩ ∧
    make_sensay_request "PATCH" "/x" "sec" "ver" none none none (.netFail "boom") =
      ⟨none, some .unsupportedMethod, false⟩ :=
  ⟨(claim4_request_contract "GET" "/users/u" "sec" "ver" none none none _).2.1
      200 _ "" (by decide) rfl (by decide),
   (claim4_request_contract "PATCH" "/x" "sec" "ver" none none none _).1 (by decide)⟩


/-! ## C5 -/

/-- C5: for every backlog and every row i whose knowledge-base create call
fails, the loop records exactly an error for row i (error increment 1, no
processed increment), never attempts the fill call for row i, and row i's
processed flag remains false after the run (rows carry distinct store ids and
row i starts unprocessed). -/
theorem claim5_createFail_row (sec ver uuid : String) (calls : Nat → RowCalls)
    (rows : List Row) (store0 : Nat → Bool) (i : Nat) (row : Row)
    (hrow : rows.get? i = some row)
    (hinit : store0 row.id = false)
    (hnodup : (rows.map Row.id).Nodup)
    (hwf : ∀ k, k < rows.length → rowWf (calls k))
    (hfail : callFails (calls i).createNet) :
    ∃ final step,
      runRows sec ver uuid calls rows 0 (initialRunState store0) = .ok final ∧
      (runRowsSteps sec ver uuid calls rows 0).get? i = some step ∧
      step.outcome = .createFailed ∧ step.errorInc = 1 ∧ step.processedInc = 0 ∧
      step.fillAttempted = false ∧
      final.store row.id = false := by
  have hwf0 : ∀ k, k < rows.length → rowWf (calls (0 + k)) := by simpa using hwf
  obtain ⟨final, hfin⟩ :=
    runRows_wf_ok sec ver uuid calls rows 0 (initialRunState store0) hwf0
  obtain ⟨step, hget, hstep⟩ := runRowsSteps_get sec ver uuid calls rows 0 hwf0 i row hrow
  rw [Nat.zero_add] at hstep
  obtain ⟨tail, hshape⟩ := stepRow_createFails sec ver uuid row (calls i) hfail
  have hstepeq : step = ⟨.createFailed,
      "❌ Failed to create Sensay KB entry for msg_ts " ++ row.slack_message_ts ++
        ": " ++ tail, 0, 1, false, false, false, 1⟩ := by
    have := hstep.symm.trans hshape
    injection this
  have hi : i < rows.length := by
    rcases List.get?_eq_some.mp hrow with ⟨hlen, _⟩
    exact hlen
  have hstore : final.store row.id = false := by
    have hunch := runRows_store_unchanged sec ver uuid calls rows 0
      (initialRunState store0) row.id ?_
    · rw [hfin] at hunch
      simpa [stateAfterLoop, initialRunState, hinit] using hunch
    · intro k row' hk hid stp hstp
      rw [Nat.zero_add] at hstp
      by_cases hki : k = i
      · subst hki
        have : row' = row := by
          rw [hrow] at hk
          injection hk with hk
          exact hk.symm
        subst this
        have : stp = step := by
          have := hstp.symm.trans hstep
          injection this
        rw [this, hstepeq]
      · exfalso
        have hk' : k < rows.length := by
          rcases List.get?_eq_some.mp hk with ⟨hlen, _⟩
          exact hlen
        have hmk : (rows.map Row.id).get? k = some row.id := by
          rw [List.get?_map, hk]
          simp [hid]
        have hmi : (rows.map Row.id).get? i = some row.id := by
          rw [List.get?_map, hrow]
          simp
        exact hki (List.get?_inj (by simpa using hk') hnodup (hmk.trans hmi.symm))
  exact ⟨final, step, hfin, hget, by rw [hstepeq], by rw [hstepeq],
    by rw [hstepeq], by rw [hstepeq], hstore⟩

/-- Witness for C5: a concrete two-row backlog whose second row's create call
times out — applying the theorem at an explicit input. -/
theorem claim5_witness :
    ∃ final step,
      runRows "sec" "ver" "uuid-1" (fun i => if i = 0 then okRowCalls else failRowCalls)
        [rowOne, rowTwo] 0 (initialRunState (fun _ => false)) = .ok final ∧
      (runRowsSteps "sec" "ver" "uuid-1"
        (fun i => if i = 0 then okRowCalls else failRowCalls) [rowOne, rowTwo] 0).get? 1 =
        some step ∧
      step.outcome = .createFailed ∧ step.errorInc = 1 ∧ step.processedInc = 0 ∧
      step.fillAttempted = false ∧
      final.store rowTwo.id = false :=
  claim5_createFail_row "sec" "ver" "uuid-1"
    (fun i => if i = 0 then okRowCalls else failRowCalls)
    [rowOne, rowTwo] (fun _ => false) 1 rowTwo rfl rfl (by decide)
    (fun k hk => by
      cases k with
      | zero => exact okRowCalls_wf
      | succ k2 => exact failRowCalls_wf)
    (Or.inl ⟨"timeout", rfl⟩)


/-! ## C6 -/

/-- C6 counterexample: a 2-row run (one success, one failure) ends with the
summary "Training complete for 'Rep'. Successfully trained: 1, Errors: 1." —
the total row count (2) appears nowhere in the final summary, refuting "the
final summary reports all three final counts — processed, error, and total". -/
theorem claim6_counterexample :
    (runTraining
        { ownerID := some "U1", replicaName := "Rep",
          fetch := .ok [rowOne, rowTwo],
          calls := fun i => if i = 0 then okRowCalls else failRowCalls }
        "uuid-1" "sec" "ver" (fun _ => false)).summaryOf =
      some "Training complete for 'Rep'. Successfully trained: 1, Errors: 1." ∧
    strHasSub "Training complete for 'Rep'. Successfully trained: 1, Errors: 1."
      (toString [rowOne, rowTwo].length) = false := by
  constructor
  · rfl
  · rfl

/-- C6 (amended): after the loop finishes over a non-empty backlog, the final
report is the full ordered log plus a summary stating the processed and error
counts; the total row count is not part of the final summary (it is reported
before the loop starts, and equals the log's length). -/
theorem claim6_final_report (env : TrainEnv) (uuid sec ver : String)
    (store0 : Nat → Bool) (rows : List Row)
    (howner : pyTruthyStrOpt env.ownerID = true)
    (hfetch : env.fetch = .ok rows)
    (hne : rows ≠ [])
    (hwf : ∀ k, k < rows.length → rowWf (env.calls k)) :
    ∃ st, runTraining env uuid sec ver store0 =
        .completed st
          ("Training complete for '" ++ env.replicaName ++
            "'. Successfully trained: " ++ toString st.processed_count ++
            ", Errors: " ++ toString st.error_count ++ ".")
          (String.intercalate "\n" st.training_logs) ∧
      st.training_logs.length = rows.length ∧
      st.processed_count + st.error_count = rows.length := by
  obtain ⟨st, hrun, hlen, hsum⟩ :=
    runTraining_completes env uuid sec ver store0 rows howner hfetch hne hwf
  exact ⟨st, hrun, hlen, hsum⟩

/-- Witness for the amended C6 at a concrete all-success one-row backlog. -/
theorem claim6_witness :
    ∃ st, runTraining
        { ownerID := some "U1", replicaName := "Rep",
          fetch := .ok [rowOne], calls := fun _ => okRowCalls }
        "uuid-1" "sec" "ver" (fun _ => false) =
        .completed st
          ("Training complete for '" ++ "Rep" ++
            "'. Successfully trained: " ++ toString st.processed_count ++
            ", Errors: " ++ toString st.error_count ++ ".")
          (String.intercalate "\n" st.training_logs) ∧
      st.training_logs.length = [rowOne].length ∧
      st.processed_count + st.error_count = [rowOne].length :=
  claim6_final_report
    { ownerID := some "U1", replicaName := "Rep",
      fetch := .ok [rowOne], calls := fun _ => okRowCalls }
    "uuid-1" "sec" "ver" (fun _ => false) [rowOne]
    rfl rfl (by simp) (fun k hk => okRowCalls_wf)

/-! ## C7 -/

/-- C7 counterexample: a failure of the initial Supabase backlog fetch also
aborts the whole batch (with no log entry and no counter increment), refuting
"no other remote-call or store-call failure aborts the batch". -/
theorem claim7_counterexample :
    runTraining
        { ownerID := some "U1", replicaName := "Rep",
          fetch := .error "connection refused", calls := fun _ => okRowCalls }
        "uuid-1" "sec" "ver" (fun _ => false) =
      .abortedFetch "Error fetching messages from Supabase: connection refused" ∧
    (runTraining
        { ownerID := some "U1", replicaName := "Rep",
          fetch := .error "connection refused", calls := fun _ => okRowCalls }
        "uuid-1" "sec" "ver" (fun _ => false)).processedCount = 0 ∧
    (runTraining
        { ownerID := some "U1", replicaName := "Rep",
          fetch := .error "connection refused", calls := fun _ => okRowCalls }
        "uuid-1" "sec" "ver" (fun _ => false)).errorCount = 0 :=
  ⟨rfl, rfl, rfl⟩

/-- C7 (amended): an unresolvable owner id aborts immediately with the exact
user-visible message, before any Sensay call; a failure of the initial backlog
fetch also aborts, before any row is processed; once the loop starts, every
remote-call and store-call failure is handled at row granularity — the run
completes with one log line per row and processed + error == total. -/
theorem claim7_abort_policy (env : TrainEnv) (uuid sec ver : String)
    (store0 : Nat → Bool) :
    (pyTruthyStrOpt env.ownerID = false →
      runTraining env uuid sec ver store0 =
        .abortedNoOwner
          "Cannot determine Slack User ID (ownerID) for this replica. Training aborted." ∧
      (runTraining env uuid sec ver store0).sensayCallCount = 0) ∧
    (∀ e, pyTruthyStrOpt env.ownerID = true → env.fetch = .error e →
      runTraining env uuid sec ver store0 =
        .abortedFetch ("Error fetching messages from Supabase: " ++ e) ∧
      (runTraining env uuid sec ver store0).sensayCallCount = 0 ∧
      (runTraining env uuid sec ver store0).processedCount = 0 ∧
      (runTraining env uuid sec ver store0).errorCount = 0) ∧
    (∀ rows, pyTruthyStrOpt env.ownerID = true → env.fetch = .ok rows → rows ≠ [] →
      (∀ k, k < rows.length → rowWf (env.calls k)) →
      ∃ st s2 l2, runTraining env uuid sec ver store0 = .completed st s2 l2 ∧
        st.training_logs.length = rows.length ∧
        st.processed_count + st.error_count = rows.length) := by
  refine ⟨?_, ?_, ?_⟩
  · intro h
    have hres : runTraining env uuid sec ver store0 = .abortedNoOwner
        "Cannot determine Slack User ID (ownerID) for this replica. Training aborted." := by
      simp [runTraining, h]
    exact ⟨hres, by rw [hres]; rfl⟩
  · intro e howner hfetch
    have hres : runTraining env uuid sec ver store0 =
        .abortedFetch ("Error fetching messages from Supabase: " ++ e) := by
      simp only [runTraining, howner, hfetch, Bool.not_true]
      rfl
    exact ⟨hres, by rw [hres]; rfl, by rw [hres]; rfl, by rw [hres]; rfl⟩
  · intro rows howner hfetch hne hwf
    obtain ⟨st, hrun, hlen, hsum⟩ :=
      runTraining_completes env uuid sec ver store0 rows howner hfetch hne hwf
    exact ⟨st, _, _, hrun, hlen, hsum⟩


/-- Witness for the amended C7: a concrete replica with no resolvable owner
aborts with the exact message and zero Sensay calls. -/
theorem claim7_witness :
    runTraining
        { ownerID := none, replicaName := "Rep",
          fetch := .ok [rowOne], calls := fun _ => okRowCalls }
        "uuid-1" "sec" "ver" (fun _ => false) =
      .abortedNoOwner
        "Cannot determine Slack User ID (ownerID) for this replica. Training aborted." ∧
    (runTraining
        { ownerID := none, replicaName := "Rep",
          fetch := .ok [rowOne], calls := fun _ => okRowCalls }
        "uuid-1" "sec" "ver" (fun _ => false)).sensayCallCount = 0 :=
  (claim7_abort_policy
    { ownerID := none, replicaName := "Rep",
      fetch := .ok [rowOne], calls := fun _ => okRowCalls }
    "uuid-1" "sec" "ver" (fun _ => false)).1 rfl

/-! ## C8 -/

/-- C8: markProcessed is idempotent (marking an already-processed row leaves
processed == true with no error), the flag write is monotone, and no operation
of a training run ever resets a row's processed flag from true to false. -/
theorem claim8_mark_idempotent_monotone :
    (∀ (store : Nat → Bool) (rowId : Nat),
      markProcessed (markProcessed store rowId) rowId = markProcessed store rowId) ∧
    (∀ (store : Nat → Bool) (rowId : Nat), markProcessed store rowId rowId = true) ∧
    (∀ (store : Nat → Bool) (rowId j : Nat), store j = true →
      markProcessed store rowId j = true) ∧
    (∀ (env : TrainEnv) (uuid sec ver : String) (store0 : Nat → Bool) (j : Nat),
      store0 j = true →
      (runTraining env uuid sec ver store0).storeAfter store0 j = true) := by
  refine ⟨?_, ?_, ?_, ?_⟩
  · intro store rowId
    funext j
    simp only [markProcessed]
    split <;> rfl
  · intro store rowId
    simp [markProcessed]
  · intro store rowId j h
    simp only [markProcessed]
    split
    · rfl
    · exact h
  · intro env uuid sec ver store0 j h
    by_cases howner : pyTruthyStrOpt env.ownerID = true
    · rcases henv : env.fetch with efetch | rows
      · simp [runTraining, howner, henv, TrainResult.storeAfter, h]
      · by_cases hempty : rows.isEmpty
        · simp [runTraining, howner, henv, hempty, TrainResult.storeAfter, h]
        · have hm := runRows_store_mono sec ver uuid env.calls rows 0
            (initialRunState store0) j (by simpa [initialRunState] using h)
          rcases hrun : runRows sec ver uuid env.calls rows 0 (initialRunState store0)
            with ⟨st, e⟩ | st
          · rw [hrun] at hm
            simpa [runTraining, howner, henv, hempty, hrun, TrainResult.storeAfter,
              stateAfterLoop] using hm
          · rw [hrun] at hm
            simpa [runTraining, howner, henv, hempty, hrun, TrainResult.storeAfter,
              stateAfterLoop] using hm
    · have howner2 : pyTruthyStrOpt env.ownerID = false := by simpa using howner
      simp [runTraining, howner2, TrainResult.storeAfter, h]

/-- Witness for C8 at a concrete store and run. -/
theorem claim8_witness :
    markProcessed (markProcessed (fun _ => false) 1) 1 =
      markProcessed (fun _ => false) 1 ∧
    markProcessed (fun j => j == 2) 1 2 = true ∧
    (runTraining
        { ownerID := some "U1", replicaName := "Rep",
          fetch := .ok [rowOne], calls := fun _ => okRowCalls }
        "uuid-1" "sec" "ver" (fun j => j == 2)).storeAfter (fun j => j == 2) 2 = true :=
  ⟨claim8_mark_idempotent_monotone.1 (fun _ => false) 1,
   claim8_mark_idempotent_monotone.2.2.1 (fun j => j == 2) 1 2 rfl,
   claim8_mark_idempotent_monotone.2.2.2
     { ownerID := some "U1", replicaName := "Rep",
       fetch := .ok [rowOne], calls := fun _ => okRowCalls }
     "uuid-1" "sec" "ver" (fun j => j == 2) 2 rfl⟩

/-! ## C9 -/

/-- C9: an empty backlog stops the run with the specific "no work" message
(reporting zero processed, zero errors, zero total) and makes no Sensay API
call. -/
theorem claim9_zero_rows (env : TrainEnv) (uuid sec ver : String)
    (store0 : Nat → Bool)
    (howner : pyTruthyStrOpt env.ownerID = true)
    (hfetch : env.fetch = .ok []) :
    runTraining env uuid sec ver store0 =
      .noWork ("✅ No new messages found in Supabase for user '" ++
        env.ownerID.getD "" ++ "' to train with.") ∧
    (runTraining env uuid sec ver store0).processedCount = 0 ∧
    (runTraining env uuid sec ver store0).errorCount = 0 ∧
    (runTraining env uuid sec ver store0).sensayCallCount = 0 := by
  have hres : runTraining env uuid sec ver store0 =
      .noWork ("✅ No new messages found in Supabase for user '" ++
        env.ownerID.getD "" ++ "' to train with.") := by
    simp only [runTraining, howner, hfetch, Bool.not_true]
    rfl
  exact ⟨hres, by rw [hres]; rfl, by rw [hres]; rfl, by rw [hres]; rfl⟩

/-- Witness for C9 at a concrete empty backlog. -/
theorem claim9_witness :
    runTraining
        { ownerID := some "U1", replicaName := "Rep",
          fetch := .ok [], calls := fun _ => okRowCalls }
        "uuid-1" "sec" "ver" (fun _ => false) =
      .noWork ("✅ No new messages found in Supabase for user '" ++
        (some "U1").getD "" ++ "' to train with.") ∧
    (runTraining
        { ownerID := some "U1", replicaName := "Rep",
          fetch := .ok [], calls := fun _ => okRowCalls }
        "uuid-1" "sec" "ver" (fun _ => false)).processedCount = 0 ∧
    (runTraining
        { ownerID := some "U1", replicaName := "Rep",
          fetch := .ok [], calls := fun _ => okRowCalls }
        "uuid-1" "sec" "ver" (fun _ => false)).errorCount = 0 ∧
    (runTraining
        { ownerID := some "U1", replicaName := "Rep",
          fetch := .ok [], calls := fun _ => okRowCalls }
        "uuid-1" "sec" "ver" (fun _ => false)).sensayCallCount = 0 :=
  claim9_zero_rows
    { ownerID := some "U1", replicaName := "Rep",
      fetch := .ok [], calls := fun _ => okRowCalls }
    "uuid-1" "sec" "ver" (fun _ => false) rfl rfl

/-! ## C10 -/

/-- C10: an HTTP-success response of the create or fill call whose JSON body
lacks a truthy `success` field (including an empty object) is treated exactly
like a transport/HTTP failure: an error log line, an error-count increment,
and the row is not marked processed. -/
theorem claim10_success_flag_required (sec ver uuid : String) (row : Row)
    (c : RowCalls) :
    (httpSuccessNoSuccess c.createNet →
      ∃ step tail, stepRow sec ver uuid row c = .ok step ∧
        step.outcome = .createFailed ∧ step.errorInc = 1 ∧ step.processedInc = 0 ∧
        step.marked = false ∧
        step.logLine = "❌ Failed to create Sensay KB entry for msg_ts " ++
          row.slack_message_ts ++ ": " ++ tail) ∧
    (createCallOk c → httpSuccessNoSuccess c.fillNet →
      ∃ step kb tail, stepRow sec ver uuid row c = .ok step ∧
        step.outcome = .fillFailed ∧ step.errorInc = 1 ∧ step.processedInc = 0 ∧
        step.marked = false ∧
        step.logLine = "❌ Failed to add text to Sensay KB entry " ++ kb ++
          " (msg_ts " ++ row.slack_message_ts ++ "): " ++ tail) := by
  constructor
  · intro h
    obtain ⟨status, fs, l, hnet, h2a, h2b, hsucc⟩ := h
    have hfails : callFails c.createNet :=
      Or.inr (Or.inr (Or.inr (Or.inr
        ⟨status, fs, l, hnet, raiseForStatus_false_of_2xx h2a h2b, hsucc⟩)))
    obtain ⟨tail, hstep⟩ := stepRow_createFails sec ver uuid row c hfails
    exact ⟨_, tail, hstep, rfl, rfl, rfl, rfl, rfl⟩
  · intro hc h
    obtain ⟨s1, fs1, l1, hcn, h1a, h1b, hsucc1, hkb1⟩ := hc
    obtain ⟨status, fs, l, hnet, h2a, h2b, hsucc⟩ := h
    have hfails : callFails c.fillNet :=
      Or.inr (Or.inr (Or.inr (Or.inr
        ⟨status, fs, l, hnet, raiseForStatus_false_of_2xx h2a h2b, hsucc⟩)))
    obtain ⟨kb, tail, hstep⟩ := stepRow_fillFails sec ver uuid row c hcn
      (raiseForStatus_false_of_2xx h1a h1b) hsucc1 hkb1 hfails
    exact ⟨_, kb, tail, hstep, rfl, rfl, rfl, rfl, rfl⟩

/-- Witness for C10: a concrete 200-with-empty-object create response is
counted as a failure. -/
theorem claim10_witness :
    ∃ step tail, stepRow "sec" "ver" "uuid-1" rowOne
        { createNet := .response 200 (.jsonBody (.jobj [])) "",
          fillNet := .netFail "x", markErr := none } = .ok step ∧
      step.outcome = .createFailed ∧ step.errorInc = 1 ∧ step.processedInc = 0 ∧
      step.marked = false ∧
      step.logLine = "❌ Failed to create Sensay KB entry for msg_ts " ++
        rowOne.slack_message_ts ++ ": " ++ tail :=
  (claim10_success_flag_required "sec" "ver" "uuid-1" rowOne
    { createNet := .response 200 (.jsonBody (.jobj [])) "",
      fillNet := .netFail "x", markErr := none }).1
    ⟨200, [], "", rfl, by omega, by omega, rfl⟩

end Sensay
